import Mathlib

/-!
Shallow embedding of the trace/debug control protocol of r64emu
(`src/emu/src/dbg.rs`, `DebuggerUI::trace` and `DebuggerUI::render`),
together with the parts of the `Debugger`/`Tracer` surface that `dbg.rs`
calls into (`set_poll_event`, `set_breakpoint_oneshot`,
`disable_breakpoint_oneshot`, `Tracer::null`), which live in a module that
is not part of the given sources and are therefore modelled from the spec.

Wall-clock instants are modelled as natural numbers (milliseconds).
-/

/-- Memory-access kind of a watchpoint, per the spec's data model
(`access-kind ∈ \x7bread, write\x7d`). -/
inductive AccessKind where
  | read
  | write
deriving DecidableEq

/-- The `TraceEvent` tagged union as used by `dbg.rs`: the six core-raised
signals (`Poll`, `Breakpoint`, `WatchpointRead`, `WatchpointWrite`,
`BreakpointOneShot`, `GenericBreak`) plus the two coordinator-synthesized
events (`Paused`, `Stepped`).  The third payload of `Breakpoint` is never
inspected by the coordinator (it matches it with a wildcard), so it is kept
as a bare number. -/
inductive TraceEvent where
  | Poll
  | Breakpoint (cpu : String) (addr : Nat) (kind : Nat)
  | WatchpointRead (cpu : String) (addr : Nat)
  | WatchpointWrite (cpu : String) (addr : Nat)
  | BreakpointOneShot (cpu : String) (addr : Nat)
  | GenericBreak (msg : String)
  | Paused
  | Stepped
deriving DecidableEq

/-- The `UiCommand` tagged union consumed by `DebuggerUI::render`. -/
inductive UiCommand where
  | Pause (paused : Bool)
  | BreakpointOneShot (cpu : String) (pc : Nat)
  | CpuStep (cpu : String)
deriving DecidableEq

/-- True exactly on the five signals whose handling in `DebuggerUI::trace`
pauses the session (`Breakpoint`, `WatchpointRead`, `WatchpointWrite`,
`BreakpointOneShot`, `GenericBreak`). -/
def TraceEvent.is_pausing : TraceEvent → Bool
  | TraceEvent.Breakpoint _ _ _ => true
  | TraceEvent.WatchpointRead _ _ => true
  | TraceEvent.WatchpointWrite _ _ => true
  | TraceEvent.BreakpointOneShot _ _ => true
  | TraceEvent.GenericBreak _ => true
  | _ => false

/-- True exactly on the six signals a unit of work may return per the spec:
`Poll` plus the five pausing signals. -/
def TraceEvent.is_core_signal : TraceEvent → Bool
  | TraceEvent.Poll => true
  | e => e.is_pausing

/-- Modelled from the spec: the trace checkpoint value (`Tracer`, whose
module is not among the given sources).  It carries a read-only view of the
breakpoint table (entries `(cpu_name, address, enabled, one_shot)`), the
watchpoint table (`(cpu_name, address, access-kind)`), and the poll
deadline. -/
structure Tracer where
  breakpoints : List (String × Nat × Bool × Bool)
  watchpoints : List (String × Nat × AccessKind)
  poll_instant : Option Nat
deriving DecidableEq

/-- Modelled from the spec: `Tracer::null()`, a tracer with no breakpoint
or watchpoint conditions and no poll deadline. -/
def Tracer.null : Tracer :=
  { breakpoints := [], watchpoints := [], poll_instant := none }

/-- Modelled from the spec: step 3 of the checkpoint evaluation order —
emit `Poll` when the current time has reached the poll deadline. -/
def Tracer.check_poll (t : Tracer) (now : Nat) : Option TraceEvent :=
  match t.poll_instant with
  | some d => if d ≤ now then some TraceEvent.Poll else none
  | none => none

/-- Modelled from the spec: the checkpoint evaluation the emulation core
invokes at each instruction boundary (with `access` reporting a memory
access it just performed, if any).  Fixed evaluation order: enabled
breakpoint at `(cpu, pc)` first (as `BreakpointOneShot` when the entry is
one-shot), then watchpoint match on the access, then the poll deadline,
else continue with no signal. -/
def Tracer.check (t : Tracer) (cpu : String) (pc : Nat)
    (access : Option (AccessKind × Nat)) (now : Nat) : Option TraceEvent :=
  match t.breakpoints.find? (fun e => e.1 == cpu && e.2.1 == pc && e.2.2.1) with
  | some e =>
    if e.2.2.2 then some (TraceEvent.BreakpointOneShot cpu pc)
    else some (TraceEvent.Breakpoint cpu pc 0)
  | none =>
    match access with
    | some (k, addr) =>
      if t.watchpoints.any (fun w => w.1 == cpu && w.2.1 == addr && w.2.2 == k) then
        match k with
        | AccessKind.read => some (TraceEvent.WatchpointRead cpu addr)
        | AccessKind.write => some (TraceEvent.WatchpointWrite cpu addr)
      else t.check_poll now
    | none => t.check_poll now

/-- Modelled from the spec: the coordinator-owned `Debugger` state (its
module is not among the given sources): persistent breakpoint and
watchpoint tables, the armed one-shot breakpoints (at most one per CPU),
and the poll deadline used for the next tracer. -/
structure Debugger where
  breakpoints : List (String × Nat × Bool × Bool)
  watchpoints : List (String × Nat × AccessKind)
  breakpoint_oneshot : List (String × Nat)
  poll_instant : Option Nat
deriving DecidableEq

/-- Modelled from the spec: `Debugger::set_poll_event`, recording the
absolute instant after which checkpoints emit `Poll`. -/
def Debugger.set_poll_event (d : Debugger) (t : Nat) : Debugger :=
  { d with poll_instant := some t }

/-- Modelled from the spec: `Debugger::set_breakpoint_oneshot(cpu, pc)` —
arming a one-shot entry for `(cpu, pc)` supersedes any prior one-shot for
that CPU; passing `none` just removes that CPU's one-shot. -/
def Debugger.set_breakpoint_oneshot (d : Debugger) (cpu : String)
    (pc : Option Nat) : Debugger :=
  let rest := d.breakpoint_oneshot.filter (fun e => !(e.1 == cpu))
  match pc with
  | some a => { d with breakpoint_oneshot := (cpu, a) :: rest }
  | none => { d with breakpoint_oneshot := rest }

/-- Modelled from the spec: `Debugger::disable_breakpoint_oneshot()` —
unconditionally clears any armed one-shot breakpoint (idempotent, safe when
none is armed). -/
def Debugger.disable_breakpoint_oneshot (d : Debugger) : Debugger :=
  { d with breakpoint_oneshot := [] }

/-- Modelled from the spec: `Debugger::new_tracer()`, building a fresh
checkpoint value from the current tables and poll deadline (armed one-shot
entries appear as enabled one-shot breakpoints). -/
def Debugger.new_tracer (d : Debugger) : Tracer :=
  { breakpoints :=
      d.breakpoints ++ d.breakpoint_oneshot.map (fun e => (e.1, e.2, true, true)),
    watchpoints := d.watchpoints,
    poll_instant := d.poll_instant }

/-- The UI-shared context slice relevant to the control protocol
(`UiCtx` fields `event`, `command` and the flash-message list used by
`add_flash_msg`): the single current-event slot with its timestamp and the
single pending-command slot. -/
structure UiCtx where
  event : Option (TraceEvent × Nat)
  command : Option UiCommand
  flash_msgs : List String
deriving DecidableEq

/-- Modelled from the spec: `UiCtx::add_flash_msg`, enqueueing a
short-lived informational notice. -/
def UiCtx.add_flash_msg (c : UiCtx) (msg : String) : UiCtx :=
  { c with flash_msgs := c.flash_msgs ++ [msg] }

/-- The coordinator state of `DebuggerUI` (`dbg.rs`): the debugger tables,
the UI context, the run/pause flag and the instant of the last render
pass.  Rendering resources (textures, imgui handles) are outside the
control protocol and not modelled. -/
structure DebuggerUI where
  dbg : Debugger
  uictx : UiCtx
  paused : Bool
  last_render : Nat
deriving DecidableEq

/-- Embeds `DebuggerUI::trace` (`dbg.rs`): one driver-loop tick.
`frame_result` is the outcome of `producer.trace_frame` (`none` = the frame
completed, `some e` = it aborted with signal `e`); `now` is the wall-clock
instant observed when recording the event.  Returns `none` exactly when the
source would hit the `unimplemented!()` fall-through arm, otherwise the
updated state and the boolean the source returns.  While paused the source
only sleeps and returns `false` without invoking the core, which is why the
result does not depend on `frame_result` in that case. -/
def DebuggerUI.trace (s : DebuggerUI) (frame_result : Option TraceEvent)
    (now : Nat) : Option (DebuggerUI × Bool) :=
  if s.paused then
    some (s, false)
  else
    let trace_until := s.last_render + 50
    let s := { s with dbg := s.dbg.set_poll_event trace_until }
    match frame_result with
    | none => some (s, true)
    | some event =>
      let s := { s with uictx := { s.uictx with event := some (event, now) } }
      match event with
      | TraceEvent.Poll => some (s, false)
      | TraceEvent.Breakpoint _ _ _ =>
        some ({ s with paused := true,
                       dbg := s.dbg.disable_breakpoint_oneshot }, false)
      | TraceEvent.WatchpointRead cpu_name _ =>
        some ({ s with paused := true,
                       dbg := s.dbg.disable_breakpoint_oneshot,
                       uictx := s.uictx.add_flash_msg
                         ("Watchpoint (read) hit on " ++ cpu_name) }, false)
      | TraceEvent.WatchpointWrite cpu_name _ =>
        some ({ s with paused := true,
                       dbg := s.dbg.disable_breakpoint_oneshot,
                       uictx := s.uictx.add_flash_msg
                         ("Watchpoint (write) hit on " ++ cpu_name) }, false)
      | TraceEvent.BreakpointOneShot _ _ =>
        some ({ s with paused := true,
                       dbg := s.dbg.disable_breakpoint_oneshot }, false)
      | TraceEvent.GenericBreak msg =>
        some ({ s with paused := true,
                       dbg := s.dbg.disable_breakpoint_oneshot,
                       uictx := s.uictx.add_flash_msg
                         ("Emulation stopped:\n" ++ msg) }, false)
      | _ => none

/-- The command a render pass ends up servicing: the one the UI wrote into
the slot during this pass's rendering, else whatever was already pending
(always the former in the source, since every pass ends with an empty
command slot). -/
def DebuggerUI.serviced_command (s : DebuggerUI)
    (ui : Option (TraceEvent × Nat) → Option UiCommand) : Option UiCommand :=
  match ui s.uictx.event with
  | some c => some c
  | none => s.uictx.command

/-- Embeds `DebuggerUI::render` (`dbg.rs`): one render pass.  The UI widget
activity during `render_main`/`render_debug` is abstracted as `ui`, which
reads the current-event slot (as the source's views do while rendering) and
may write a command into the single command slot; `step` is the core's
`trace_step`, which the `CpuStep` arm invokes with `Tracer::null()` and
whose result is discarded (`let _ =` in the source).  After rendering, the
source sets `last_render`, clears the event slot, services at most the one
pending command, and clears the command slot. -/
def DebuggerUI.render (s : DebuggerUI)
    (ui : Option (TraceEvent × Nat) → Option UiCommand)
    (step : String → Tracer → Option TraceEvent)
    (now : Nat) : DebuggerUI :=
  let cmd := s.serviced_command ui
  let s := { s with uictx := { s.uictx with command := cmd }, last_render := now }
  let s := { s with uictx := { s.uictx with event := none } }
  let s :=
    match cmd with
    | some (UiCommand.Pause p) => { s with paused := p }
    | some (UiCommand.BreakpointOneShot cpu_name pc) =>
      { s with dbg := s.dbg.set_breakpoint_oneshot cpu_name (some pc),
               paused := false }
    | some (UiCommand.CpuStep cpu_name) =>
      let _ := step cpu_name Tracer.null
      { s with paused := true,
               uictx := { s.uictx with event := some (TraceEvent.Stepped, now) } }
    | none => s
  { s with uictx := { s.uictx with command := none } }

/-- A render pass as the spec's wording for the event slot would have it:
the current-event slot is cleared at the start of the pass, before the UI
is given a chance to issue a new command (so the UI reads an empty event
slot).  Kept for comparison with `DebuggerUI.render`, which clears the slot
only after the UI has rendered. -/
def DebuggerUI.render_clear_event_first (s : DebuggerUI)
    (ui : Option (TraceEvent × Nat) → Option UiCommand)
    (step : String → Tracer → Option TraceEvent)
    (now : Nat) : DebuggerUI :=
  DebuggerUI.render { s with uictx := { s.uictx with event := none } } ui step now

/-! Concrete states used to instantiate the theorems. -/

/-- A concrete Running coordinator state with one persistent breakpoint and
an armed one-shot breakpoint. -/
def running_state : DebuggerUI :=
  { dbg := { breakpoints := [("CPU0", 0x1000, true, false)],
             watchpoints := [],
             breakpoint_oneshot := [("CPU0", 0x100)],
             poll_instant := none },
    uictx := { event := none, command := none, flash_msgs := [] },
    paused := false,
    last_render := 0 }

/-- The same coordinator state, Paused. -/
def paused_state : DebuggerUI :=
  { running_state with paused := true }

/-- A step function standing for a core whose single step completes. -/
def step_none : String → Tracer → Option TraceEvent :=
  fun _ _ => none

/-- Claim C1: on a Running tick whose unit of work aborts with any of the
five pausing signals (`Breakpoint`, `WatchpointRead`, `WatchpointWrite`,
`BreakpointOneShot`, `GenericBreak`), the coordinator transitions to
Paused, records that signal with its timestamp as the current event, and
unconditionally clears any armed one-shot breakpoint. -/
theorem trace_pausing_signal_pauses_records_and_clears_oneshot
    (s : DebuggerUI) (ev : TraceEvent) (now : Nat)
    (hrun : s.paused = false) (hp : ev.is_pausing = true) :
    ∃ s', DebuggerUI.trace s (some ev) now = some (s', false) ∧
      s'.paused = true ∧
      s'.dbg.breakpoint_oneshot = [] ∧
      s'.uictx.event = some (ev, now) := by
  cases ev <;>
    simp_all [DebuggerUI.trace, TraceEvent.is_pausing, Debugger.set_poll_event,
      Debugger.disable_breakpoint_oneshot, UiCtx.add_flash_msg]

/-- Witness for claim C1: a `GenericBreak` — a signal unrelated to the
armed one-shot's address — pauses the session, is recorded as the current
event, and clears the armed one-shot. -/
theorem trace_pausing_signal_pauses_records_and_clears_oneshot_witness :
    ∃ s', DebuggerUI.trace running_state
        (some (TraceEvent.GenericBreak "assert")) 7 = some (s', false) ∧
      s'.paused = true ∧
      s'.dbg.breakpoint_oneshot = [] ∧
      s'.uictx.event = some (TraceEvent.GenericBreak "assert", 7) :=
  trace_pausing_signal_pauses_records_and_clears_oneshot
    running_state (TraceEvent.GenericBreak "assert") 7 rfl rfl

/-- Claim C3: a Running tick aborting with `Poll` leaves the run state
Running and the one-shot table untouched; its only effect on the UI context
is recording `Poll` with its timestamp as the current event. -/
theorem trace_poll_keeps_state_and_oneshot
    (s : DebuggerUI) (now : Nat) (hrun : s.paused = false) :
    ∃ s', DebuggerUI.trace s (some TraceEvent.Poll) now = some (s', false) ∧
      s'.paused = false ∧
      s'.dbg.breakpoint_oneshot = s.dbg.breakpoint_oneshot ∧
      s'.uictx.event = some (TraceEvent.Poll, now) ∧
      s'.uictx.command = s.uictx.command ∧
      s'.uictx.flash_msgs = s.uictx.flash_msgs := by
  simp [DebuggerUI.trace, hrun, Debugger.set_poll_event]

/-- Witness for claim C3 at a concrete Running state. -/
theorem trace_poll_keeps_state_and_oneshot_witness :
    ∃ s', DebuggerUI.trace running_state (some TraceEvent.Poll) 9 =
        some (s', false) ∧
      s'.paused = false ∧
      s'.dbg.breakpoint_oneshot = running_state.dbg.breakpoint_oneshot ∧
      s'.uictx.event = some (TraceEvent.Poll, 9) ∧
      s'.uictx.command = running_state.uictx.command ∧
      s'.uictx.flash_msgs = running_state.uictx.flash_msgs :=
  trace_poll_keeps_state_and_oneshot running_state 9 rfl

/-- Claim C8: a tick taken while Paused returns `false` with the state
unchanged, whatever the core would have produced — no unit of emulation
work is invoked. -/
theorem trace_paused_no_work
    (s : DebuggerUI) (frame_result : Option TraceEvent) (now : Nat)
    (hp : s.paused = true) :
    DebuggerUI.trace s frame_result now = some (s, false) := by
  simp [DebuggerUI.trace, hp]

/-- Witness for claim C8: a Paused tick ignores even a breakpoint outcome
and returns the state unchanged. -/
theorem trace_paused_no_work_witness :
    DebuggerUI.trace paused_state
      (some (TraceEvent.Breakpoint "CPU0" 0x1000 0)) 3 =
      some (paused_state, false) :=
  trace_paused_no_work paused_state (some (TraceEvent.Breakpoint "CPU0" 0x1000 0)) 3 rfl

/-- Claim C9: `trace` returns `true` exactly when the tick was taken while
Running and the unit of work completed a full frame; every abort signal
(including `Poll`) and every Paused tick yields `false`. -/
theorem trace_true_iff_frame_completed
    (s : DebuggerUI) (frame_result : Option TraceEvent) (now : Nat)
    (s' : DebuggerUI) (b : Bool)
    (h : DebuggerUI.trace s frame_result now = some (s', b)) :
    b = true ↔ (s.paused = false ∧ frame_result = none) := by
  cases hpp : s.paused <;> rcases frame_result with _ | ev <;>
    (try cases ev) <;>
    simp_all [DebuggerUI.trace, Debugger.set_poll_event,
      Debugger.disable_breakpoint_oneshot, UiCtx.add_flash_msg]

/-- Witness for claim C9: a Running tick whose frame completes returns
`true`. -/
theorem trace_true_iff_frame_completed_witness :
    true = true ↔ (running_state.paused = false ∧
      (none : Option TraceEvent) = none) :=
  trace_true_iff_frame_completed running_state none 0 _ true rfl

/-- Claim C7: under the precondition that a unit of work only ever returns
completion or one of the six named core signals, the coordinator's
signal-handling never reaches the unimplemented fall-through arm (modelled
as `none`): every outcome is handled. -/
theorem trace_handles_all_core_signals
    (s : DebuggerUI) (frame_result : Option TraceEvent) (now : Nat)
    (hok : ∀ ev, frame_result = some ev → ev.is_core_signal = true) :
    (DebuggerUI.trace s frame_result now).isSome = true := by
  cases hpp : s.paused
  · rcases frame_result with _ | ev
    · simp [DebuggerUI.trace, hpp]
    · have hc := hok ev rfl
      cases ev <;>
        simp_all [DebuggerUI.trace, TraceEvent.is_core_signal,
          TraceEvent.is_pausing, hpp]
  · simp [DebuggerUI.trace, hpp]

/-- Witness for claim C7: the tick handling a `WatchpointWrite` outcome
produces a result (no panic). -/
theorem trace_handles_all_core_signals_witness :
    (DebuggerUI.trace running_state
      (some (TraceEvent.WatchpointWrite "CPU0" 0x80)) 4).isSome = true :=
  trace_handles_all_core_signals running_state
    (some (TraceEvent.WatchpointWrite "CPU0" 0x80)) 4
    (fun ev h => by injection h with h2; subst h2; rfl)

/-- Claim C2: a render pass that services a `CpuStep(cpu)` command ends
with run state Paused and current event `Stepped`, and its outcome is
independent of the stepped instruction's own result (the source discards
it). -/
theorem render_cpustep_forces_paused_stepped
    (s : DebuggerUI) (ui : Option (TraceEvent × Nat) → Option UiCommand)
    (f g : String → Tracer → Option TraceEvent) (now : Nat) (cpu : String)
    (h : s.serviced_command ui = some (UiCommand.CpuStep cpu)) :
    (s.render ui f now).paused = true ∧
    (s.render ui f now).uictx.event = some (TraceEvent.Stepped, now) ∧
    s.render ui f now = s.render ui g now := by
  simp [DebuggerUI.render, h]

/-- A UI that issues a `CpuStep` command for CPU0. -/
def cpustep_ui : Option (TraceEvent × Nat) → Option UiCommand :=
  fun _ => some (UiCommand.CpuStep "CPU0")

/-- A step function standing for a core whose single step aborts with a
signal (which the render pass must ignore). -/
def step_generic_break : String → Tracer → Option TraceEvent :=
  fun _ _ => some (TraceEvent.GenericBreak "step fault")

/-- Witness for claim C2: a serviced `CpuStep` ends Paused with event
`Stepped` even when the stepped instruction aborts, and the resulting state
equals the one obtained when the step completes cleanly. -/
theorem render_cpustep_forces_paused_stepped_witness :
    (running_state.render cpustep_ui step_generic_break 3).paused = true ∧
    (running_state.render cpustep_ui step_generic_break 3).uictx.event =
      some (TraceEvent.Stepped, 3) ∧
    running_state.render cpustep_ui step_generic_break 3 =
      running_state.render cpustep_ui step_none 3 :=
  render_cpustep_forces_paused_stepped running_state cpustep_ui
    step_generic_break step_none 3 "CPU0" rfl

/-- A UI that issues `Pause(true)` unconditionally. -/
def pause_cmd_ui : Option (TraceEvent × Nat) → Option UiCommand :=
  fun _ => some (UiCommand.Pause true)

/-- Claim C4 counterexample: a render pass servicing `Pause(true)` from the
Running state does enter Paused, but ends with an empty current-event slot —
no `Paused` event is synthesized on the command path. -/
theorem render_pause_command_no_paused_event_cex :
    running_state.paused = false ∧
    (running_state.render pause_cmd_ui step_none 9).paused = true ∧
    (running_state.render pause_cmd_ui step_none 9).uictx.event = none :=
  ⟨rfl, rfl, rfl⟩

/-- Claim C4 (amended): a render pass servicing `Pause(p)` sets the run
state to Running or Paused according to `p`; no `Paused` event is
synthesized on this path — the event slot, cleared during the pass, is
empty when the pass ends. -/
theorem render_pause_command_sets_state_no_event
    (s : DebuggerUI) (ui : Option (TraceEvent × Nat) → Option UiCommand)
    (f : String → Tracer → Option TraceEvent) (now : Nat) (p : Bool)
    (h : s.serviced_command ui = some (UiCommand.Pause p)) :
    (s.render ui f now).paused = p ∧
    (s.render ui f now).uictx.event = none := by
  simp [DebuggerUI.render, h]

/-- Witness for claim C4 (amended) at a concrete input. -/
theorem render_pause_command_sets_state_no_event_witness :
    (running_state.render pause_cmd_ui step_none 9).paused = true ∧
    (running_state.render pause_cmd_ui step_none 9).uictx.event = none :=
  render_pause_command_sets_state_no_event running_state pause_cmd_ui
    step_none 9 true rfl

/-- A UI that issues `Pause(true)` exactly when it observes a non-empty
current-event slot. -/
def event_sensitive_ui : Option (TraceEvent × Nat) → Option UiCommand :=
  fun e =>
    match e with
    | some _ => some (UiCommand.Pause true)
    | none => none

/-- A Running coordinator state whose current-event slot still holds the
`Poll` event recorded by the previous tick. -/
def poll_event_state : DebuggerUI :=
  { running_state with
    uictx := { running_state.uictx with event := some (TraceEvent.Poll, 5) } }

/-- Claim C5 counterexample: the current-event slot is not cleared at the
start of the render pass before the UI can issue a command — a UI that
issues `Pause(true)` exactly when it observes a non-empty event slot sees
the previous tick's `Poll` event and pauses the session under the source's
ordering, whereas under the claimed clear-first ordering it would observe
an empty slot and leave the session Running. -/
theorem render_event_clear_order_cex :
    (poll_event_state.render event_sensitive_ui step_none 9).paused = true ∧
    (DebuggerUI.render_clear_event_first poll_event_state event_sensitive_ui
        step_none 9).paused = false ∧
    poll_event_state.render event_sensitive_ui step_none 9 ≠
      DebuggerUI.render_clear_event_first poll_event_state event_sensitive_ui
        step_none 9 := by
  refine ⟨rfl, rfl, fun hcontra => ?_⟩
  have h1 := congrArg DebuggerUI.paused hcontra
  simp [DebuggerUI.render, DebuggerUI.render_clear_event_first,
    DebuggerUI.serviced_command, poll_event_state, running_state,
    event_sensitive_ui, step_none] at h1

/-- Claim C5 (amended): in every render pass the current-event slot is
cleared after the UI has rendered (and had its chance to issue a command)
but before the pending command is consumed — so the pass ends with the
event slot holding `Stepped` exactly when a `CpuStep` command was serviced
and empty otherwise — and at most the one pending command is consumed,
the command slot being empty when the pass ends. -/
theorem render_event_cleared_before_command_consumed
    (s : DebuggerUI) (ui : Option (TraceEvent × Nat) → Option UiCommand)
    (step : String → Tracer → Option TraceEvent) (now : Nat) :
    (s.render ui step now).uictx.command = none ∧
    (s.render ui step now).uictx.event =
      (match s.serviced_command ui with
       | some (UiCommand.CpuStep _) => some (TraceEvent.Stepped, now)
       | _ => none) := by
  rcases h : s.serviced_command ui with _ | cmd
  · simp [DebuggerUI.render, h]
  · cases cmd <;> simp [DebuggerUI.render, h]

/-- The entries of `tbl` already excluding `cpu` contribute nothing to a
filter for `cpu`. -/
theorem filter_excluded_cpu_eq_nil (tbl : List (String × Nat)) (cpu : String) :
    (tbl.filter (fun e => !(e.1 == cpu))).filter (fun e => e.1 == cpu) = [] := by
  induction tbl with
  | nil => rfl
  | cons a l ih =>
    by_cases hc : a.1 == cpu <;> simp [List.filter_cons, hc, ih]

/-- Claim C6: a render pass that services a `BreakpointOneShot(cpu, pc)`
command transitions to Running and arms exactly one one-shot entry for that
CPU, namely `(cpu, pc)` — superseding any prior one-shot for it. -/
theorem render_oneshot_command_arms_and_runs
    (s : DebuggerUI) (ui : Option (TraceEvent × Nat) → Option UiCommand)
    (f : String → Tracer → Option TraceEvent) (now : Nat)
    (cpu : String) (pc : Nat)
    (h : s.serviced_command ui = some (UiCommand.BreakpointOneShot cpu pc)) :
    (s.render ui f now).paused = false ∧
    (s.render ui f now).dbg.breakpoint_oneshot.filter (fun e => e.1 == cpu) =
      [(cpu, pc)] := by
  refine ⟨by simp [DebuggerUI.render, h], ?_⟩
  simp [DebuggerUI.render, h, Debugger.set_breakpoint_oneshot,
    List.filter_cons, filter_excluded_cpu_eq_nil]

/-- A UI that issues `BreakpointOneShot("CPU1", 0x2000)`. -/
def oneshot_ui : Option (TraceEvent × Nat) → Option UiCommand :=
  fun _ => some (UiCommand.BreakpointOneShot "CPU1" 0x2000)

/-- A Paused coordinator state with prior one-shot entries, one of them for
CPU1. -/
def oneshot_state : DebuggerUI :=
  { paused_state with
    dbg := { paused_state.dbg with
             breakpoint_oneshot := [("CPU1", 0x1000), ("CPU2", 7)] } }

/-- Witness for claim C6: issuing `BreakpointOneShot("CPU1", 0x2000)` while
Paused with a prior one-shot armed for CPU1 resumes Running with exactly one
arm for CPU1, at the new address. -/
theorem render_oneshot_command_arms_and_runs_witness :
    (oneshot_state.render oneshot_ui step_none 4).paused = false ∧
    (oneshot_state.render oneshot_ui step_none 4).dbg.breakpoint_oneshot.filter
        (fun e => e.1 == "CPU1") = [("CPU1", 0x2000)] :=
  render_oneshot_command_arms_and_runs oneshot_state oneshot_ui step_none 4
    "CPU1" 0x2000 rfl

/-- Claim C10: the single-step path runs with the null tracer, whose
checkpoint evaluates no breakpoint, watchpoint, or poll condition — it
emits no signal for any input — and the step's own result never affects the
state a render pass produces (the source discards it). -/
theorem cpustep_null_tracer_no_signals :
    (∀ (cpu : String) (pc : Nat) (access : Option (AccessKind × Nat))
        (now : Nat), Tracer.null.check cpu pc access now = none) ∧
    (∀ (s : DebuggerUI) (ui : Option (TraceEvent × Nat) → Option UiCommand)
        (f g : String → Tracer → Option TraceEvent) (now : Nat),
        s.render ui f now = s.render ui g now) := by
  constructor
  · intro cpu pc access now
    rcases access with _ | ⟨k, addr⟩ <;>
      simp [Tracer.check, Tracer.null, Tracer.check_poll]
  · intro s ui f g now
    rfl
